import Mathlib

/-!
Shallow embedding of the claw.ai WhatsApp bot provider-dispatch engine
(src/whatsapp/ai.js, src/whatsapp/providers.js, src/whatsapp/search.js,
src/whatsapp/database.js, plus the bridge implementation src/unnamed/part_000).

Network transports are abstracted by explicit oracles: an adapter's HTTP
round-trip is a value of an oracle function, either an exception (`err`) or
the optional string obtained by the adapter's own response-field extraction
path.  JavaScript string truthiness (`undefined`/`null`/`""` are falsy) is
modelled by `truthy` on `Option String`; JavaScript `x || null`
normalisation by `orNull`.  Object-literal property lookup is modelled at
two levels: the own-property map of each literal (`PROVIDERS`,
`SYSTEM_PROMPTS`, `FALLBACK_CHAINS`), which is exact on the configured
chains, modes and provider names the dispatch path uses, and `jsLookup`,
which additionally accounts for the truthy inherited `Object.prototype`
member names (`constructor`, `toString`, ...) that JavaScript's prototype
chain makes visible on any object literal; the exception-aware
definitions built on `jsLookup` capture the resulting TypeErrors.
-/

namespace ClawAI

/-- JS truthiness of an optional string: `undefined`, `null` and `""` are
falsy, every other string is truthy. -/
def truthy : Option String → Bool
  | none => false
  | some s => !(s == "")

/-- JS `x || null` on an optional string: a falsy value becomes `none`. -/
def orNull : Option String → Option String
  | none => none
  | some s => if s = "" then none else some s

theorem truthy_iff (o : Option String) :
    truthy o = true ↔ ∃ s, o = some s ∧ s ≠ "" := by
  cases o with
  | none => simp [truthy]
  | some s => simp [truthy]

theorem orNull_eq_none_iff (o : Option String) :
    orNull o = none ↔ o = none ∨ o = some "" := by
  cases o with
  | none => simp [orNull]
  | some s =>
    by_cases h : s = "" <;> simp [orNull, h]

/-- The configured secrets (`API_KEYS` in config.js): one optional
environment string per provider / search backend. -/
structure Env where
  groq : Option String
  openrouter : Option String
  pollinations : Option String
  gemini : Option String
  cerebras : Option String
  sambanova : Option String
  cloudflare : Option String
  cloudflareAccount : Option String
  huggingface : Option String
  cohere : Option String
  siliconflow : Option String
  routeway : Option String
  tavily : Option String
  brave : Option String
  serper : Option String
  puter : Option String
deriving Repr, DecidableEq

/-- Message roles of the canonical conversation representation. -/
inductive Role where
  | system
  | user
  | assistant
deriving Repr, DecidableEq

/-- A canonical message: `{ role, content }`. -/
structure Msg where
  role : Role
  content : String
deriving Repr, DecidableEq

/-- A provider descriptor (providers.js `PROVIDERS` entries); only the
fields the dispatch engine reads are embedded: the credential lookup
closure `key`. -/
structure ProviderDef where
  key : Env → Option String

/-- The provider catalog of providers.js (own-property lookup on the
`PROVIDERS` object literal).  Each entry's `key` mirrors the source's
`key: () => API_KEYS.x` closure; `pollinations` normalises its key with
`|| null` and `mlvoca`'s key is constantly `null`, exactly as in the
source. -/
def PROVIDERS : String → Option ProviderDef := fun name =>
  if name = "groq" then some ⟨fun e => e.groq⟩
  else if name = "openrouter" then some ⟨fun e => e.openrouter⟩
  else if name = "pollinations" then some ⟨fun e => orNull e.pollinations⟩
  else if name = "gemini" then some ⟨fun e => e.gemini⟩
  else if name = "cerebras" then some ⟨fun e => e.cerebras⟩
  else if name = "sambanova" then some ⟨fun e => e.sambanova⟩
  else if name = "cloudflare" then some ⟨fun e => e.cloudflare⟩
  else if name = "huggingface" then some ⟨fun e => e.huggingface⟩
  else if name = "cohere" then some ⟨fun e => e.cohere⟩
  else if name = "siliconflow" then some ⟨fun e => e.siliconflow⟩
  else if name = "routeway" then some ⟨fun e => e.routeway⟩
  else if name = "mlvoca" then some ⟨fun _ => none⟩
  else if name = "puter" then some ⟨fun e => e.puter⟩
  else none

/-- providers.js `isProviderAvailable`: registered, and either one of the
two anonymous-tier providers or a truthy credential. -/
def isProviderAvailable (env : Env) (name : String) : Bool :=
  match PROVIDERS name with
  | none => false
  | some p =>
    if name = "pollinations" ∨ name = "mlvoca" then true
    else truthy (p.key env)

/-- The credential the catalog associates with a provider name (the
provider's `key()` closure applied to the environment). -/
def credentialOf (env : Env) (name : String) : Option String :=
  match PROVIDERS name with
  | none => none
  | some p => p.key env

/-- Result of a JavaScript property lookup on an object literal: an own
property, a truthy inherited `Object.prototype` member (a function or
accessor, never a string/array of the literal's value type), or an
absent key (`undefined`). -/
inductive JsLookup (α : Type) where
  | own (v : α)
  | inherited
  | absent
deriving Repr, DecidableEq

/-- The member names every plain object literal inherits from
`Object.prototype` in Node: looking any of these up on `PROVIDERS`,
`SYSTEM_PROMPTS` or `FALLBACK_CHAINS` yields a truthy non-own value. -/
def objectProtoKeys : List String :=
  ["constructor", "hasOwnProperty", "isPrototypeOf", "propertyIsEnumerable",
   "toLocaleString", "toString", "valueOf", "__proto__",
   "__defineGetter__", "__defineSetter__", "__lookupGetter__",
   "__lookupSetter__"]

/-- JavaScript property lookup through the prototype chain: own entries
first, then the inherited `Object.prototype` members, else absent. -/
def jsLookup (ownMap : String → Option α) (name : String) : JsLookup α :=
  match ownMap name with
  | some v => JsLookup.own v
  | none =>
    if name ∈ objectProtoKeys then JsLookup.inherited else JsLookup.absent

/-- providers.js `isProviderAvailable` with the prototype chain made
explicit: an absent name returns `false` at the `if (!p)` guard; an
inherited `Object.prototype` member is truthy, passes the guard, and
`p.key()` then throws a TypeError (`p.key` is `undefined`); a registered
provider behaves as `isProviderAvailable`. -/
def isProviderAvailableE (env : Env) (name : String) : Except Unit Bool :=
  match jsLookup PROVIDERS name with
  | JsLookup.absent => Except.ok false
  | JsLookup.inherited => Except.error ()
  | JsLookup.own p =>
    Except.ok
      (if name = "pollinations" ∨ name = "mlvoca" then true
       else truthy (p.key env))

/-- Outcome of one provider HTTP round-trip, abstracted at the adapter's
response-field extraction path: `err` is a raised transport/parse error
(axios rejection), `ok f` carries the optional string found at the
adapter's expected field path (`none` when the path is absent). -/
inductive NetResult where
  | ok (field : Option String)
  | err
deriving Repr, DecidableEq

/-- The transport oracle: what the wire yields for a (provider, model)
attempt in this turn. -/
def Net : Type := String → String → NetResult

/-- ai.js `openAIRequest`: generic OpenAI-compatible adapter; the reply is
`data.choices?.[0]?.message?.content || null`. -/
def openAIRequest (net : Net) (name model : String) (_msgs : List Msg) :
    Except Unit (Option String) :=
  match net name model with
  | NetResult.err => Except.error ()
  | NetResult.ok f => Except.ok (orNull f)

/-- ai.js `geminiRequest`: returns `null` without a call when the gemini
key is falsy; otherwise the reply is
`data.candidates?.[0]?.content?.parts?.[0]?.text || null`. -/
def geminiRequest (env : Env) (net : Net) (model : String) (_msgs : List Msg) :
    Except Unit (Option String) :=
  if truthy env.gemini then
    match net "gemini" model with
    | NetResult.err => Except.error ()
    | NetResult.ok f => Except.ok (orNull f)
  else Except.ok none

/-- ai.js `cohereRequest`: returns `null` without a call when the cohere
key is falsy; otherwise the reply is `data.message?.content?.[0]?.text || null`. -/
def cohereRequest (env : Env) (net : Net) (model : String) (_msgs : List Msg) :
    Except Unit (Option String) :=
  if truthy env.cohere then
    match net "cohere" model with
    | NetResult.err => Except.error ()
    | NetResult.ok f => Except.ok (orNull f)
  else Except.ok none

/-- ai.js `cloudflareRequest`: returns `null` without a call when the
token or the account id is falsy; otherwise the reply is
`data.result?.response || null`. -/
def cloudflareRequest (env : Env) (net : Net) (model : String) (_msgs : List Msg) :
    Except Unit (Option String) :=
  if truthy env.cloudflare && truthy env.cloudflareAccount then
    match net "cloudflare" model with
    | NetResult.err => Except.error ()
    | NetResult.ok f => Except.ok (orNull f)
  else Except.ok none

/-- ai.js `mlvocaRequest`, lines 55-62: the outbound `prompt` field.
`prompt` is the content of the final message (`messages[messages.length - 1]?.content || ''`),
`sys` is the content of the FIRST system message
(`messages.find(m => m.role === 'system')?.content || ''`); the payload
prompt is `sys ? sys + "\n\n" + prompt : prompt`. -/
def mlvocaPrompt (msgs : List Msg) : String :=
  let prompt := (msgs.getLast?.map Msg.content).getD ""
  let sys := ((msgs.find? fun m => decide (m.role = Role.system)).map Msg.content).getD ""
  if sys = "" then prompt else sys ++ "\n\n" ++ prompt

/-- ai.js `mlvocaRequest`: no credential check; sends `mlvocaPrompt` and
reads `data.response || null`. -/
def mlvocaRequest (net : Net) (model : String) (msgs : List Msg) :
    Except Unit (Option String) :=
  let _payloadPrompt := mlvocaPrompt msgs
  match net "mlvoca" model with
  | NetResult.err => Except.error ()
  | NetResult.ok f => Except.ok (orNull f)

/-- ai.js `puterRequest`: returns `null` without a call when the puter
token is falsy; the driver chosen by model-name pattern only affects the
outbound payload, so it is folded into the oracle; the reply is
`data.result?.message?.content || data.result?.choices?.[0]?.message?.content || null`. -/
def puterRequest (env : Env) (net : Net) (model : String) (_msgs : List Msg) :
    Except Unit (Option String) :=
  if truthy env.puter then
    match net "puter" model with
    | NetResult.err => Except.error ()
    | NetResult.ok f => Except.ok (orNull f)
  else Except.ok none

/-- The adapter selection inside ai.js `tryProvider` (lines 88-95): five
special wire-format families by provider identity, every other provider
through the generic OpenAI-compatible adapter. -/
def adapterCall (env : Env) (net : Net) (name model : String) (msgs : List Msg) :
    Except Unit (Option String) :=
  if name = "gemini" then geminiRequest env net model msgs
  else if name = "cohere" then cohereRequest env net model msgs
  else if name = "cloudflare" then cloudflareRequest env net model msgs
  else if name = "mlvoca" then mlvocaRequest net model msgs
  else if name = "puter" then puterRequest env net model msgs
  else openAIRequest net name model msgs

/-- ai.js `tryProvider` with its exception behaviour made explicit: an
unregistered name yields `null`; a falsy catalog key on a
non-anonymous-tier provider yields `null` without a call; otherwise the
matching adapter runs inside `try/catch`, any raised error being caught,
logged and turned into `null`. -/
def tryProviderE (env : Env) (net : Net) (name model : String) (msgs : List Msg) :
    Except Unit (Option String) :=
  match PROVIDERS name with
  | none => Except.ok none
  | some p =>
    if truthy (p.key env) = false ∧ name ≠ "pollinations" ∧ name ≠ "mlvoca" then
      Except.ok none
    else
      match adapterCall env net name model msgs with
      | Except.error _ => Except.ok none
      | Except.ok v => Except.ok v

/-- The value ai.js `tryProvider` resolves with. -/
def tryProvider (env : Env) (net : Net) (name model : String) (msgs : List Msg) :
    Option String :=
  match tryProviderE env net name model msgs with
  | Except.ok v => v
  | Except.error _ => none

theorem tryProviderE_isOk (env : Env) (net : Net) (name model : String)
    (msgs : List Msg) :
    ∃ v, tryProviderE env net name model msgs = Except.ok v := by
  unfold tryProviderE
  cases PROVIDERS name with
  | none => exact ⟨none, rfl⟩
  | some p =>
    simp only
    split
    · exact ⟨none, rfl⟩
    · cases adapterCall env net name model msgs with
      | error e => exact ⟨none, rfl⟩
      | ok v => exact ⟨v, rfl⟩

theorem adapterCall_of_err (env : Env) (net : Net) (name model : String)
    (msgs : List Msg) (h : net name model = NetResult.err) :
    adapterCall env net name model msgs = Except.error () ∨
      adapterCall env net name model msgs = Except.ok none := by
  unfold adapterCall geminiRequest cohereRequest cloudflareRequest
    mlvocaRequest puterRequest openAIRequest
  split_ifs <;> subst_vars <;> simp_all

theorem adapterCall_of_absent (env : Env) (net : Net) (name model : String)
    (msgs : List Msg) (h : net name model = NetResult.ok none) :
    adapterCall env net name model msgs = Except.ok none := by
  unfold adapterCall geminiRequest cohereRequest cloudflareRequest
    mlvocaRequest puterRequest openAIRequest
  split_ifs <;> subst_vars <;> simp_all [orNull]

theorem tryProviderE_of_err (env : Env) (net : Net) (name model : String)
    (msgs : List Msg) (h : net name model = NetResult.err) :
    tryProviderE env net name model msgs = Except.ok none := by
  unfold tryProviderE
  cases PROVIDERS name with
  | none => rfl
  | some p =>
    simp only
    split
    · rfl
    · rcases adapterCall_of_err env net name model msgs h with hA | hA <;> rw [hA]

theorem tryProviderE_of_absent (env : Env) (net : Net) (name model : String)
    (msgs : List Msg) (h : net name model = NetResult.ok none) :
    tryProviderE env net name model msgs = Except.ok none := by
  unfold tryProviderE
  cases PROVIDERS name with
  | none => rfl
  | some p =>
    simp only
    split
    · rfl
    · rw [adapterCall_of_absent env net name model msgs h]

theorem tryProvider_of_err (env : Env) (net : Net) (name model : String)
    (msgs : List Msg) (h : net name model = NetResult.err) :
    tryProvider env net name model msgs = none := by
  unfold tryProvider
  rw [tryProviderE_of_err env net name model msgs h]

theorem tryProvider_of_absent (env : Env) (net : Net) (name model : String)
    (msgs : List Msg) (h : net name model = NetResult.ok none) :
    tryProvider env net name model msgs = none := by
  unfold tryProvider
  rw [tryProviderE_of_absent env net name model msgs h]

/-- ai.js `tryProvider` with the prototype chain made explicit: an
absent provider name returns `null` at the `if (!provider)` guard; an
inherited `Object.prototype` member is truthy, passes the guard, and
`provider.key()` at line 84 — BEFORE the `try` block — throws a
TypeError that escapes; a registered provider runs the gate and the
adapter under `try/catch` as in `tryProviderE`. -/
def tryProviderJS (env : Env) (net : Net) (name model : String)
    (msgs : List Msg) : Except Unit (Option String) :=
  match jsLookup PROVIDERS name with
  | JsLookup.absent => Except.ok none
  | JsLookup.inherited => Except.error ()
  | JsLookup.own p =>
    if truthy (p.key env) = false ∧ name ≠ "pollinations" ∧ name ≠ "mlvoca" then
      Except.ok none
    else
      match adapterCall env net name model msgs with
      | Except.error _ => Except.ok none
      | Except.ok v => Except.ok v

/-- On names that are registered or hit no inherited `Object.prototype`
member, the prototype-chain-aware `tryProviderJS` coincides with the
own-property `tryProviderE`. -/
theorem tryProviderJS_eq_tryProviderE (env : Env) (net : Net)
    (name model : String) (msgs : List Msg)
    (h : (PROVIDERS name).isSome = true ∨ name ∉ objectProtoKeys) :
    tryProviderJS env net name model msgs =
      tryProviderE env net name model msgs := by
  unfold tryProviderJS tryProviderE jsLookup
  cases hP : PROVIDERS name with
  | some p => rfl
  | none =>
    have hm : name ∉ objectProtoKeys := by
      rcases h with h | h
      · rw [hP] at h
        simp at h
      · exact h
    rw [if_neg hm]

/-- `tryProviderE` always resolves, with the value `tryProvider`
extracts. -/
theorem tryProviderE_eq_ok (env : Env) (net : Net) (name model : String)
    (msgs : List Msg) :
    tryProviderE env net name model msgs =
      Except.ok (tryProvider env net name model msgs) := by
  obtain ⟨v, hv⟩ := tryProviderE_isOk env net name model msgs
  rw [hv]
  unfold tryProvider
  rw [hv]

/-- A fallback-chain entry: a `{ provider, model }` pair. -/
structure Candidate where
  provider : String
  model : String
deriving Repr, DecidableEq

/-- config.js `SYSTEM_PROMPTS.normal`. -/
def promptNormal : String :=
  "Kamu adalah asisten AI bernama Vee. Jawab dengan bahasa yang sama dengan pengguna. Berikan jawaban yang helpful, akurat, dan friendly."

/-- config.js `SYSTEM_PROMPTS.reasoning`. -/
def promptReasoning : String :=
  "Kamu adalah asisten AI bernama Vee dengan kemampuan reasoning tinggi. Gunakan pendekatan step-by-step untuk masalah kompleks. Jawab dengan bahasa yang sama dengan pengguna."

/-- config.js `SYSTEM_PROMPTS.search`. -/
def promptSearch : String :=
  "Kamu adalah asisten AI bernama Vee dengan akses informasi terkini. Gunakan hasil pencarian untuk menjawab. Sebutkan sumber jika relevan. Jawab dengan bahasa yang sama dengan pengguna."

/-- config.js `SYSTEM_PROMPTS` (own-property lookup). -/
def SYSTEM_PROMPTS : String → Option String := fun mode =>
  if mode = "normal" then some promptNormal
  else if mode = "reasoning" then some promptReasoning
  else if mode = "search" then some promptSearch
  else none

/-- config.js `FALLBACK_CHAINS.normal`. -/
def chainNormal : List Candidate :=
  [⟨"groq", "llama-3.3-70b-versatile"⟩,
   ⟨"groq", "llama-3.1-8b-instant"⟩,
   ⟨"cerebras", "llama-3.3-70b"⟩,
   ⟨"sambanova", "Meta-Llama-3.3-70B-Instruct"⟩,
   ⟨"openrouter", "openrouter/free"⟩,
   ⟨"openrouter", "meta-llama/llama-3.3-70b-instruct:free"⟩,
   ⟨"pollinations", "openai"⟩,
   ⟨"pollinations", "gemini"⟩,
   ⟨"cloudflare", "@cf/meta/llama-3.1-8b-instruct"⟩,
   ⟨"puter", "gpt-4o-mini"⟩,
   ⟨"mlvoca", "tinyllama"⟩]

/-- config.js `FALLBACK_CHAINS.reasoning`. -/
def chainReasoning : List Candidate :=
  [⟨"groq", "deepseek-r1-distill-llama-70b"⟩,
   ⟨"groq", "qwen-qwq-32b"⟩,
   ⟨"groq", "openai/gpt-oss-120b"⟩,
   ⟨"cerebras", "gpt-oss-120b"⟩,
   ⟨"sambanova", "DeepSeek-R1"⟩,
   ⟨"openrouter", "deepseek/deepseek-r1-zero:free"⟩,
   ⟨"pollinations", "perplexity-reasoning"⟩,
   ⟨"routeway", "deepseek-r1:free"⟩]

/-- config.js `FALLBACK_CHAINS.search` (the `model: null` entries carry an
empty model string in the embedding; none of these backend names is a
registered provider). -/
def chainSearchMode : List Candidate :=
  [⟨"duckduckgo", ""⟩, ⟨"tavily", ""⟩, ⟨"brave", ""⟩, ⟨"serper", ""⟩]

/-- config.js `FALLBACK_CHAINS` (own-property lookup). -/
def FALLBACK_CHAINS : String → Option (List Candidate) := fun mode =>
  if mode = "normal" then some chainNormal
  else if mode = "reasoning" then some chainReasoning
  else if mode = "search" then some chainSearchMode
  else none

/-- ai.js line 128: `FALLBACK_CHAINS[mode] || FALLBACK_CHAINS.normal`
(an array object is always truthy, so `||` is plain defaulting). -/
def chainFor (mode : String) : List Candidate :=
  (FALLBACK_CHAINS mode).getD chainNormal

/-- ai.js line 103: `SYSTEM_PROMPTS[mode] || SYSTEM_PROMPTS.normal`
(string truthiness, via `orNull`). -/
def promptFor (mode : String) : String :=
  (orNull (SYSTEM_PROMPTS mode)).getD promptNormal

/-- The value ai.js line 103 selects, with the prototype chain made
explicit: either a genuine prompt string, or the truthy inherited
`Object.prototype` member — which the `||` does NOT replace by the
normal prompt. -/
inductive PromptSel where
  | str (s : String)
  | protoMember
deriving Repr, DecidableEq

/-- ai.js line 103 through the prototype chain: an own prompt (falling
back to normal only when falsy), the inherited truthy member for
`Object.prototype` names, the normal prompt for absent modes. -/
def promptForJS (mode : String) : PromptSel :=
  match jsLookup SYSTEM_PROMPTS mode with
  | JsLookup.own p => PromptSel.str (if p = "" then promptNormal else p)
  | JsLookup.inherited => PromptSel.protoMember
  | JsLookup.absent => PromptSel.str promptNormal

/-- ai.js lines 128-129 through the prototype chain: the candidate list
the `for…of` loop will iterate, or an error — for an inherited
`Object.prototype` name, `FALLBACK_CHAINS[mode]` is a truthy non-array,
the `||` keeps it, and the `for…of` at line 129 throws a TypeError
(not iterable). -/
def chainForJS (mode : String) : Except Unit (List Candidate) :=
  match jsLookup FALLBACK_CHAINS mode with
  | JsLookup.own c => Except.ok c
  | JsLookup.inherited => Except.error ()
  | JsLookup.absent => Except.ok chainNormal

/-- JS `array.slice(-n)`: the last `n` elements (the whole list when it is
shorter than `n`). -/
def takeLast (n : Nat) (l : List α) : List α :=
  l.drop (l.length - n)

/-- ai.js lines 103-117: the canonical message list `askAI` assembles —
base system prompt, then (when the history is non-empty) `slice(-8)` of
the history, then (when searching and the search produced a truthy
result) one `Hasil pencarian:` system message, then the new user
message.  `searchRes` is the oracle for `await search(userMessage)`. -/
def assembleMessages (userMessage : String) (useSearch : Bool)
    (chatHistory : List Msg) (mode : String) (searchRes : Option String) :
    List Msg :=
  let m1 : List Msg := [⟨Role.system, promptFor mode⟩]
  let m2 := if chatHistory.length > 0 then m1 ++ takeLast 8 chatHistory else m1
  let m3 :=
    if useSearch || mode == "search" then
      match orNull searchRes with
      | some r => m2 ++ [⟨Role.system, "Hasil pencarian:\n" ++ r⟩]
      | none => m2
    else m2
  m3 ++ [⟨Role.user, userMessage⟩]

/-- ai.js lines 128-136, the fallback-chain loop, instrumented with the
list of candidates on which `tryProvider` was actually invoked (the
attempted network calls): skip unavailable candidates without a call;
otherwise call, stop at the first truthy result. -/
def runChainT (env : Env) (net : Net) (msgs : List Msg) :
    List Candidate → Option (String × Candidate) × List Candidate
  | [] => (none, [])
  | c :: rest =>
    if isProviderAvailable env c.provider = false then
      runChainT env net msgs rest
    else
      match tryProvider env net c.provider c.model msgs with
      | some t => (some (t, c), [c])
      | none =>
        let r := runChainT env net msgs rest
        (r.1, c :: r.2)

/-- The fixed apology string of ai.js line 138. -/
def apologyText : String := "Maaf, semua provider tidak tersedia saat ini."

/-- What ai.js `askAI` returns given the outcome of the chain loop. -/
def fallbackText : Option (String × Candidate) → String
  | some (t, _) => t
  | none => apologyText

/-- ai.js `askAI` (lines 102-139), instrumented with the list of
candidates on which `tryProvider` was invoked: assemble the canonical
messages, probe the (provider, model) override first when both parts are
truthy and the provider is available, then walk the mode's fallback
chain, and fall back to the apology string. -/
def askAIT (env : Env) (net : Net) (searchRes : Option String)
    (userMessage : String) (useSearch : Bool)
    (selectedProvider selectedModel : Option String)
    (chatHistory : List Msg) (mode : String) : String × List Candidate :=
  let messages := assembleMessages userMessage useSearch chatHistory mode searchRes
  let sp := selectedProvider.getD ""
  let sm := selectedModel.getD ""
  if truthy selectedProvider && truthy selectedModel && isProviderAvailable env sp then
    match tryProvider env net sp sm messages with
    | some result => (result, [⟨sp, sm⟩])
    | none =>
      let r := runChainT env net messages (chainFor mode)
      (fallbackText r.1, ⟨sp, sm⟩ :: r.2)
  else
    let r := runChainT env net messages (chainFor mode)
    (fallbackText r.1, r.2)

/-- The text ai.js `askAI` resolves with. -/
def askAI (env : Env) (net : Net) (searchRes : Option String)
    (userMessage : String) (useSearch : Bool)
    (selectedProvider selectedModel : Option String)
    (chatHistory : List Msg) (mode : String) : String :=
  (askAIT env net searchRes userMessage useSearch selectedProvider
    selectedModel chatHistory mode).1

/-- A chain all of whose candidates are unavailable or answer empty/error
yields no winner. -/
theorem runChainT_exhausted (env : Env) (net : Net) (msgs : List Msg)
    (l : List Candidate)
    (h : ∀ c ∈ l, isProviderAvailable env c.provider = false ∨
      tryProvider env net c.provider c.model msgs = none) :
    (runChainT env net msgs l).1 = none := by
  induction l with
  | nil => rfl
  | cons c rest ih =>
    have hc := h c (List.mem_cons_self c rest)
    have hrest := fun x hx => h x (List.mem_cons_of_mem c hx)
    rcases hc with hc | hc
    · simp [runChainT, hc, ih hrest]
    · by_cases ha : isProviderAvailable env c.provider = false
      · simp [runChainT, ha, ih hrest]
      · simp [runChainT, ha, hc, ih hrest]

/-- The search backends a `search` call can reach. -/
inductive Backend where
  | duckduckgo
  | tavily
  | brave
  | serper
  | jina
deriving Repr, DecidableEq

/-- Outcome of one search-backend HTTP round-trip: a raised error, or the
response data. -/
inductive SResult (α : Type) where
  | ok (d : α)
  | err
deriving Repr, DecidableEq

/-- The DuckDuckGo instant-answer payload fields search.js reads:
`data.Abstract` and the `Text` field of each entry of
`data.RelatedTopics`. -/
structure DDGData where
  abstract : Option String
  topics : List (Option String)
deriving Repr, DecidableEq

/-- Per-turn oracle for the whatsapp search backends.  For the premium
backends and jina the oracle carries the flattened text their
response-shaping in search.js would produce (an `Option String`, `none`
when no usable field was present); for DuckDuckGo the raw fields are
carried so that the flattening itself is embedded. -/
structure SearchNet where
  ddg : SResult DDGData
  tavilyR : SResult (Option String)
  braveR : SResult (Option String)
  serperR : SResult (Option String)
  jinaR : SResult (Option String)
deriving Repr, DecidableEq

/-- search.js `searchDDG` flattening: push `📌 Abstract` when truthy, then
`• Text` for each of the first `maxResults` related topics with a truthy
`Text`; join with blank lines, `null` when nothing was collected. -/
def flattenDDG (d : DDGData) (maxResults : Nat) : Option String :=
  let l1 := match orNull d.abstract with
    | some a => ["📌 " ++ a]
    | none => []
  let l2 := (d.topics.take maxResults).filterMap fun t =>
    match orNull t with
    | some s => some ("• " ++ s)
    | none => none
  let results := l1 ++ l2
  if results.length > 0 then some (String.intercalate "\n\n" results) else none

/-- search.js `searchDDG`, with the backend it contacts recorded. -/
def searchDDG (net : SearchNet) (maxResults : Nat) :
    Except Unit (Option String) × List Backend :=
  match net.ddg with
  | SResult.err => (Except.error (), [Backend.duckduckgo])
  | SResult.ok d => (Except.ok (flattenDDG d maxResults), [Backend.duckduckgo])

/-- search.js `searchTavily`: with no tavily key it delegates to
`searchDDG`; otherwise it calls tavily and returns that backend's
flattened text. -/
def searchTavilyWA (env : Env) (net : SearchNet) (maxResults : Nat) :
    Except Unit (Option String) × List Backend :=
  if truthy env.tavily = false then searchDDG net maxResults
  else
    match net.tavilyR with
    | SResult.err => (Except.error (), [Backend.tavily])
    | SResult.ok r => (Except.ok r, [Backend.tavily])

/-- search.js `searchBrave`: same shape as `searchTavily`. -/
def searchBraveWA (env : Env) (net : SearchNet) (maxResults : Nat) :
    Except Unit (Option String) × List Backend :=
  if truthy env.brave = false then searchDDG net maxResults
  else
    match net.braveR with
    | SResult.err => (Except.error (), [Backend.brave])
    | SResult.ok r => (Except.ok r, [Backend.brave])

/-- search.js `searchSerper`: same shape as `searchTavily`. -/
def searchSerperWA (env : Env) (net : SearchNet) (maxResults : Nat) :
    Except Unit (Option String) × List Backend :=
  if truthy env.serper = false then searchDDG net maxResults
  else
    match net.serperR with
    | SResult.err => (Except.error (), [Backend.serper])
    | SResult.ok r => (Except.ok r, [Backend.serper])

/-- search.js `searchJina`: `data?.slice(0, 2000) || null`, folded into
the oracle. -/
def searchJinaWA (net : SearchNet) :
    Except Unit (Option String) × List Backend :=
  match net.jinaR with
  | SResult.err => (Except.error (), [Backend.jina])
  | SResult.ok r => (Except.ok r, [Backend.jina])

/-- search.js `search(query, engine = 'duckduckgo', maxResults = 5)`:
dispatch on the `engine` argument (unknown engines fall back to
DuckDuckGo), with the whole body inside `try/catch` returning `null` on
any raised error.  Instrumented with the backends contacted. -/
def searchWA (env : Env) (net : SearchNet) (_query engine : String)
    (maxResults : Nat) : Option String × List Backend :=
  let r :=
    if engine = "duckduckgo" then searchDDG net maxResults
    else if engine = "tavily" then searchTavilyWA env net maxResults
    else if engine = "brave" then searchBraveWA env net maxResults
    else if engine = "serper" then searchSerperWA env net maxResults
    else if engine = "jina" then searchJinaWA net
    else searchDDG net maxResults
  ((match r.1 with
    | Except.error _ => none
    | Except.ok v => v), r.2)

/-- Per-turn oracle for the bridge search helpers of src/unnamed/part_000:
each helper already catches its own errors and flattens its own response,
so the oracle carries the `Option String` each helper's body would
resolve with (note an empty joined string is possible and falsy). -/
structure BridgeNet where
  tavilyB : Option String
  serperB : Option String
  ddgB : Option String
deriving Repr, DecidableEq

/-- part_000 `search` (lines 227-238): try tavily when its key is
configured, then serper when its key is configured, each kept only when
its result is truthy, and finally DuckDuckGo unconditionally.
Instrumented with the backends contacted. -/
def searchBridge (env : Env) (net : BridgeNet) :
    Option String × List Backend :=
  let step3 : Option String × List Backend := (net.ddgB, [Backend.duckduckgo])
  let step2 : Option String × List Backend :=
    if truthy env.serper then
      match orNull net.serperB with
      | some r => (some r, [Backend.serper])
      | none => (step3.1, Backend.serper :: step3.2)
    else step3
  if truthy env.tavily then
    match orNull net.tavilyB with
    | some r => (some r, [Backend.tavily])
    | none => (step2.1, Backend.tavily :: step2.2)
  else step2

/-- A row of the `conversations` table; list position stands for the
`timestamp`/rowid insertion order. -/
structure ConvRow where
  user_id : String
  role : String
  content : String
deriving Repr, DecidableEq

/-- A row of the `user_settings` table (`user_id` is the primary key). -/
structure SettingsRow where
  user_id : String
  provider : String
  model : String
  mode : String
deriving Repr, DecidableEq

/-- The database state of database.js: the two tables. -/
structure DBState where
  conversations : List ConvRow
  user_settings : List SettingsRow
deriving Repr, DecidableEq

/-- database.js `getHistory`: the user's rows, newest `limit` of them, in
chronological order (`ORDER BY timestamp DESC LIMIT ?` then `reverse()`),
projected to `(role, content)`. -/
def getHistory (st : DBState) (userId : String) (limit : Nat) :
    List (String × String) :=
  takeLast limit
    ((st.conversations.filter fun r => decide (r.user_id = userId)).map
      fun r => (r.role, r.content))

/-- database.js `addMessage`: `INSERT INTO conversations ...`. -/
def addMessage (st : DBState) (userId role content : String) : DBState :=
  { st with conversations := st.conversations ++ [⟨userId, role, content⟩] }

/-- database.js `clearHistory`: `DELETE FROM conversations WHERE user_id = ?`. -/
def clearHistory (st : DBState) (userId : String) : DBState :=
  { st with conversations :=
      st.conversations.filter fun r => decide (¬ r.user_id = userId) }

/-- database.js `getSettings`: the user's settings row, or `null`. -/
def getSettings (st : DBState) (userId : String) : Option SettingsRow :=
  st.user_settings.find? fun r => decide (r.user_id = userId)

/-- database.js `getStats`: `SELECT COUNT(*) FROM conversations WHERE user_id = ?`. -/
def getStats (st : DBState) (userId : String) : Nat :=
  (st.conversations.filter fun r => decide (r.user_id = userId)).length

/-- The prompt-collapsing rule the specification describes for the
raw-generate family, modelled from the spec's words: concatenate the LAST
system message and the last USER message. -/
def mlvocaPromptSpec (msgs : List Msg) : String :=
  let sys :=
    (((msgs.filter fun m => decide (m.role = Role.system)).getLast?).map Msg.content).getD ""
  let prompt :=
    (((msgs.filter fun m => decide (m.role = Role.user)).getLast?).map Msg.content).getD ""
  if sys = "" then prompt else sys ++ "\n\n" ++ prompt

/-- An environment with no secret configured at all. -/
def env0 : Env :=
  ⟨none, none, none, none, none, none, none, none, none, none, none, none,
   none, none, none, none⟩

/-- A transport where every provider call raises. -/
def netErr : Net := fun _ _ => NetResult.err

/-- A transport where only mlvoca answers (with "hi"); every other call
raises. -/
def netMl : Net := fun name _ =>
  if name = "mlvoca" then NetResult.ok (some "hi") else NetResult.err

/-- An environment whose only secret is a tavily key. -/
def env1 : Env := { env0 with tavily := some "k" }

/-- A search oracle where DuckDuckGo has an abstract "D" and tavily would
flatten to "T". -/
def snet1 : SearchNet :=
  ⟨SResult.ok ⟨some "D", []⟩, SResult.ok (some "T"), SResult.ok none,
   SResult.ok none, SResult.ok none⟩

/-- A search oracle where every backend raises except DuckDuckGo, which
has nothing. -/
def snet0 : SearchNet :=
  ⟨SResult.err, SResult.err, SResult.err, SResult.err, SResult.err⟩

/-- A bridge search oracle where only DuckDuckGo produces text. -/
def bnet0 : BridgeNet := ⟨none, none, some "D"⟩

/-- A two-user database state: one conversation row each for alice and
bob, and a settings row for each. -/
def st0 : DBState :=
  ⟨[⟨"alice", "user", "a1"⟩, ⟨"bob", "user", "b1"⟩,
    ⟨"alice", "assistant", "a2"⟩],
   [⟨"alice", "groq", "llama-3.3-70b-versatile", "normal"⟩,
    ⟨"bob", "cohere", "command-r-08-2024", "search"⟩]⟩

/-- C1: dispatch is a first-match-wins linear scan: when every candidate
before `c` is unavailable or answers empty/error, and `c` is available
and answers the non-empty `t`, the chain loop returns exactly `(t, c)`,
the attempted candidates are exactly the available ones before `c`
followed by `c` itself, and nothing after `c` is attempted or
retried. -/
theorem chain_first_match_wins (env : Env) (net : Net) (msgs : List Msg)
    (pre : List Candidate) (c : Candidate) (post : List Candidate) (t : String)
    (hpre : ∀ d ∈ pre, isProviderAvailable env d.provider = false ∨
      tryProvider env net d.provider d.model msgs = none)
    (hav : isProviderAvailable env c.provider = true)
    (ht : tryProvider env net c.provider c.model msgs = some t) :
    runChainT env net msgs (pre ++ c :: post) =
      (some (t, c),
        (pre.filter fun d => isProviderAvailable env d.provider) ++ [c]) := by
  induction pre with
  | nil => simp [runChainT, hav, ht]
  | cons d rest ih =>
    have hd := hpre d (List.mem_cons_self d rest)
    have hrest := fun x hx => hpre x (List.mem_cons_of_mem d hx)
    rcases hd with hd | hd
    · simp [runChainT, hd, List.filter_cons, ih hrest]
    · by_cases ha : isProviderAvailable env d.provider = false
      · simp [runChainT, ha, List.filter_cons, ih hrest]
      · have ha' : isProviderAvailable env d.provider = true := by
          cases h : isProviderAvailable env d.provider
          · exact absurd h ha
          · rfl
        simp [runChainT, ha', hd, List.filter_cons, ih hrest]

/-- C1 witness: with no secrets configured and a transport where only
mlvoca answers, the normal-style chain skips the keyless groq, attempts
the anonymous pollinations (which errors), and wins at mlvoca, never
reaching the rest. -/
theorem chain_first_match_wins_witness :
    runChainT env0 netMl []
      ([⟨"groq", "llama-3.3-70b-versatile"⟩, ⟨"pollinations", "openai"⟩] ++
        ⟨"mlvoca", "tinyllama"⟩ :: [⟨"groq", "llama-3.1-8b-instant"⟩]) =
      (some ("hi", ⟨"mlvoca", "tinyllama"⟩),
        [⟨"pollinations", "openai"⟩, ⟨"mlvoca", "tinyllama"⟩]) :=
  chain_first_match_wins env0 netMl []
    [⟨"groq", "llama-3.3-70b-versatile"⟩, ⟨"pollinations", "openai"⟩]
    ⟨"mlvoca", "tinyllama"⟩ [⟨"groq", "llama-3.1-8b-instant"⟩] "hi"
    (by decide) (by decide) (by decide)

/-- C2: when the override probe yields nothing (or is skipped) and every
candidate of the selected mode's chain is unavailable or answers
empty/error, `askAI` returns the fixed apology string. -/
theorem askAI_exhausted_apology (env : Env) (net : Net)
    (searchRes : Option String) (userMessage : String) (useSearch : Bool)
    (selectedProvider selectedModel : Option String)
    (chatHistory : List Msg) (mode : String)
    (hover : (truthy selectedProvider && truthy selectedModel &&
        isProviderAvailable env (selectedProvider.getD "")) = true →
      tryProvider env net (selectedProvider.getD "") (selectedModel.getD "")
        (assembleMessages userMessage useSearch chatHistory mode searchRes) = none)
    (hchain : ∀ c ∈ chainFor mode,
      isProviderAvailable env c.provider = false ∨
      tryProvider env net c.provider c.model
        (assembleMessages userMessage useSearch chatHistory mode searchRes) = none) :
    askAI env net searchRes userMessage useSearch selectedProvider
      selectedModel chatHistory mode = apologyText := by
  unfold askAI askAIT
  simp only
  by_cases hcond : (truthy selectedProvider && truthy selectedModel &&
      isProviderAvailable env (selectedProvider.getD "")) = true
  · simp only [hcond, if_true, hover hcond]
    rw [runChainT_exhausted env net _ _ hchain]
    rfl
  · simp only [hcond, if_false, Bool.false_eq_true]
    rw [runChainT_exhausted env net _ _ hchain]
    rfl

/-- C2 witness: with no secrets, an all-raising transport, no override
and mode "normal", `askAI` returns the apology. -/
theorem askAI_exhausted_apology_witness :
    askAI env0 netErr none "halo" false none none [] "normal" = apologyText :=
  askAI_exhausted_apology env0 netErr none "halo" false none none [] "normal"
    (by decide) (by decide)

/-- Helper: the own-property availability check is true iff the name is
registered and either anonymous-tier or carries a non-empty
credential. -/
theorem isProviderAvailable_iff (env : Env) (name : String) :
    isProviderAvailable env name = true ↔
      ((PROVIDERS name).isSome ∧
        (name = "pollinations" ∨ name = "mlvoca" ∨
          ∃ s, credentialOf env name = some s ∧ s ≠ "")) := by
  unfold isProviderAvailable credentialOf
  cases h : PROVIDERS name with
  | none => simp
  | some p =>
    simp only [Option.isSome_some, true_and]
    split
    · rename_i hanon
      constructor
      · intro _
        exact hanon.elim (fun h1 => Or.inl h1) (fun h2 => Or.inr (Or.inl h2))
      · intro _
        rfl
    · rename_i hanon
      push_neg at hanon
      rw [truthy_iff]
      constructor
      · rintro ⟨s, hs⟩
        exact Or.inr (Or.inr ⟨s, hs⟩)
      · rintro (h1 | h2 | ⟨s, hs⟩)
        · exact absurd h1 hanon.1
        · exact absurd h2 hanon.2
        · exact ⟨s, hs⟩

/-- C4 counterexample: "constructor" is not registered in the catalog,
yet providers.js `isProviderAvailable("constructor")` does not return
false — the inherited `Object.prototype.constructor` is truthy, passes
the `if (!p)` guard, and `p.key()` throws a TypeError. -/
theorem isProviderAvailable_counterexample :
    PROVIDERS "constructor" = none ∧
    ("constructor" ∈ objectProtoKeys) ∧
    isProviderAvailableE env0 "constructor" = Except.error () :=
  ⟨rfl, by decide, rfl⟩

/-- C4 amended: for every provider name that is registered or hits no
inherited `Object.prototype` member, `isProviderAvailable` returns
without throwing, and returns true iff the name is registered and either
anonymous-tier or its credential lookup is non-empty (so empty/missing
secrets and absent names are unavailable); an unregistered name that IS
an inherited `Object.prototype` member makes the function throw a
TypeError instead of returning false. -/
theorem isProviderAvailable_catalog (env : Env) (name : String) :
    ((PROVIDERS name).isSome = true ∨ name ∉ objectProtoKeys →
      isProviderAvailableE env name =
        Except.ok (isProviderAvailable env name)
      ∧ (isProviderAvailable env name = true ↔
          ((PROVIDERS name).isSome ∧
            (name = "pollinations" ∨ name = "mlvoca" ∨
              ∃ s, credentialOf env name = some s ∧ s ≠ ""))))
    ∧ (PROVIDERS name = none → name ∈ objectProtoKeys →
        isProviderAvailableE env name = Except.error ()) := by
  constructor
  · intro h
    refine ⟨?_, isProviderAvailable_iff env name⟩
    unfold isProviderAvailableE isProviderAvailable jsLookup
    cases hP : PROVIDERS name with
    | some p => rfl
    | none =>
      have hm : name ∉ objectProtoKeys := by
        rcases h with h | h
        · rw [hP] at h
          simp at h
        · exact h
      rw [if_neg hm]
  · intro hP hm
    unfold isProviderAvailableE jsLookup
    rw [hP, if_pos hm]

/-- C4 amended witness: the registered keyless groq returns false
without throwing, and the prototype-only name "constructor" throws. -/
theorem isProviderAvailable_catalog_witness :
    isProviderAvailableE env0 "groq" =
      Except.ok (isProviderAvailable env0 "groq") ∧
    isProviderAvailableE env0 "constructor" = Except.error () :=
  ⟨((isProviderAvailable_catalog env0 "groq").1 (Or.inl (by decide))).1,
   (isProviderAvailable_catalog env0 "constructor").2 rfl (by decide)⟩

/-- C6 counterexample: "constructor" is an unrecognized mode, yet ai.js
does not fall back to the normal chain or prompt: the inherited truthy
`Object.prototype.constructor` survives both `||` defaults, so the
selected prompt is not the normal prompt and the `for…of` over the
non-iterable "chain" throws. -/
theorem mode_fallback_counterexample :
    ("constructor" ≠ "normal" ∧ "constructor" ≠ "reasoning" ∧
      "constructor" ≠ "search") ∧
    chainForJS "constructor" = Except.error () ∧
    promptForJS "constructor" = PromptSel.protoMember ∧
    promptForJS "constructor" ≠ PromptSel.str (promptFor "normal") := by
  refine ⟨⟨by decide, by decide, by decide⟩, rfl, rfl, by decide⟩

/-- C6 amended: an unrecognized mode string that hits no inherited
`Object.prototype` member selects the normal mode's chain and the normal
system prompt; an unrecognized mode naming an inherited
`Object.prototype` member keeps the truthy inherited value instead — the
prompt is not the normal prompt and iterating the "chain" throws. -/
theorem mode_fallback_js (mode : String)
    (h1 : mode ≠ "normal") (h2 : mode ≠ "reasoning") (h3 : mode ≠ "search") :
    (mode ∉ objectProtoKeys →
      chainForJS mode = Except.ok (chainFor "normal") ∧
      promptForJS mode = PromptSel.str (promptFor "normal"))
    ∧ (mode ∈ objectProtoKeys →
      chainForJS mode = Except.error () ∧
      promptForJS mode = PromptSel.protoMember) := by
  have hS : SYSTEM_PROMPTS mode = none := by
    unfold SYSTEM_PROMPTS
    rw [if_neg h1, if_neg h2, if_neg h3]
  have hF : FALLBACK_CHAINS mode = none := by
    unfold FALLBACK_CHAINS
    rw [if_neg h1, if_neg h2, if_neg h3]
  have hpn : promptFor "normal" = promptNormal := rfl
  have hcn : chainFor "normal" = chainNormal := rfl
  constructor
  · intro hm
    unfold chainForJS promptForJS jsLookup
    rw [hS, hF, hpn, hcn, if_neg hm, if_neg hm]
    exact ⟨rfl, rfl⟩
  · intro hm
    unfold chainForJS promptForJS jsLookup
    rw [hS, hF, if_pos hm, if_pos hm]
    exact ⟨rfl, rfl⟩

/-- C6 amended witness: the unrecognized mode "banana" falls back to
normal, while the unrecognized mode "toString" keeps the inherited
member and makes the chain iteration throw. -/
theorem mode_fallback_js_witness :
    (chainForJS "banana" = Except.ok (chainFor "normal") ∧
      promptForJS "banana" = PromptSel.str (promptFor "normal")) ∧
    (chainForJS "toString" = Except.error () ∧
      promptForJS "toString" = PromptSel.protoMember) :=
  ⟨(mode_fallback_js "banana" (by decide) (by decide) (by decide)).1
     (by decide),
   (mode_fallback_js "toString" (by decide) (by decide) (by decide)).2
     (by decide)⟩

/-- C7 counterexample: `tryProvider("constructor", ...)` throws: the
inherited `Object.prototype.constructor` is truthy at ai.js:83, and
`provider.key()` at ai.js:84 — before the `try` block — raises a
TypeError that escapes the dispatch boundary. -/
theorem tryProvider_throw_counterexample :
    PROVIDERS "constructor" = none ∧
    ("constructor" ∈ objectProtoKeys) ∧
    tryProviderJS env0 netErr "constructor" "x" [] = Except.error () :=
  ⟨rfl, by decide, rfl⟩

/-- C7 amended: for every provider name that is registered or hits no
inherited `Object.prototype` member, per-candidate failures never escape
the dispatch boundary — `tryProvider` resolves (never throws), and an
HTTP-level failure or an absent reply-field path yields `null`, letting
the fallback chain proceed; a provider name that is only an inherited
`Object.prototype` member instead makes `provider.key()` throw before
the `try` block. -/
theorem tryProvider_dispatch_boundary (env : Env) (net : Net)
    (name model : String) (msgs : List Msg)
    (h : (PROVIDERS name).isSome = true ∨ name ∉ objectProtoKeys) :
    tryProviderJS env net name model msgs =
      Except.ok (tryProvider env net name model msgs)
    ∧ (net name model = NetResult.err →
        tryProvider env net name model msgs = none)
    ∧ (net name model = NetResult.ok none →
        tryProvider env net name model msgs = none) :=
  ⟨(tryProviderJS_eq_tryProviderE env net name model msgs h).trans
     (tryProviderE_eq_ok env net name model msgs),
   tryProvider_of_err env net name model msgs,
   tryProvider_of_absent env net name model msgs⟩

/-- C7 amended witness: a raising transport makes the registered groq
attempt resolve with `null`, not an error. -/
theorem tryProvider_dispatch_boundary_witness :
    tryProviderJS env0 netErr "groq" "llama-3.3-70b-versatile" [] =
      Except.ok (tryProvider env0 netErr "groq" "llama-3.3-70b-versatile" []) ∧
    tryProvider env0 netErr "groq" "llama-3.3-70b-versatile" [] = none := by
  have h := tryProvider_dispatch_boundary env0 netErr "groq"
    "llama-3.3-70b-versatile" [] (Or.inl (by decide))
  exact ⟨h.1, h.2.1 rfl⟩

/-- C5: a supplied (provider, model) override with an unavailable
provider is skipped with no network call, dispatch going straight to the
mode's unmodified chain; with an available provider it is probed first as
a single candidate, returning its text on success, and only on its
failure does dispatch run the full unmodified chain. -/
theorem askAI_override (env : Env) (net : Net) (searchRes : Option String)
    (u : String) (useSearch : Bool) (hist : List Msg) (mode : String)
    (sp sm : String) :
    (isProviderAvailable env sp = false →
      askAIT env net searchRes u useSearch (some sp) (some sm) hist mode =
        (fallbackText (runChainT env net
            (assembleMessages u useSearch hist mode searchRes) (chainFor mode)).1,
         (runChainT env net
            (assembleMessages u useSearch hist mode searchRes) (chainFor mode)).2))
    ∧ (isProviderAvailable env sp = true → sp ≠ "" → sm ≠ "" →
        ((∀ t, tryProvider env net sp sm
            (assembleMessages u useSearch hist mode searchRes) = some t →
          askAIT env net searchRes u useSearch (some sp) (some sm) hist mode =
            (t, [⟨sp, sm⟩]))
         ∧ (tryProvider env net sp sm
              (assembleMessages u useSearch hist mode searchRes) = none →
            askAIT env net searchRes u useSearch (some sp) (some sm) hist mode =
              (fallbackText (runChainT env net
                  (assembleMessages u useSearch hist mode searchRes)
                  (chainFor mode)).1,
               ⟨sp, sm⟩ :: (runChainT env net
                  (assembleMessages u useSearch hist mode searchRes)
                  (chainFor mode)).2)))) := by
  constructor
  · intro hun
    unfold askAIT
    simp [hun]
  · intro hav hsp hsm
    constructor
    · intro t ht
      unfold askAIT
      simp [truthy, hav, hsp, hsm, ht]
    · intro ht
      unfold askAIT
      simp [truthy, hav, hsp, hsm, ht]

/-- C5 witness: with no groq key configured, an explicit groq override is
skipped without a call and dispatch runs the normal chain only. -/
theorem askAI_override_witness :
    askAIT env0 netErr none "q" false (some "groq") (some "gpt") [] "normal" =
      (fallbackText (runChainT env0 netErr
          (assembleMessages "q" false [] "normal" none) (chainFor "normal")).1,
       (runChainT env0 netErr
          (assembleMessages "q" false [] "normal" none) (chainFor "normal")).2) :=
  (askAI_override env0 netErr none "q" false [] "normal" "groq" "gpt").1
    (by decide)

/-- C3 counterexample: with a one-message history, search mode and a
successful search, ai.js appends the injected search-context system
message AFTER the history window (and right before the new user message),
not between the base system prompt and the history as claimed. -/
theorem assemble_counterexample :
    assembleMessages "u" true [⟨Role.user, "h1"⟩] "search" (some "R") =
      [⟨Role.system, promptSearch⟩, ⟨Role.user, "h1"⟩,
       ⟨Role.system, "Hasil pencarian:\nR"⟩, ⟨Role.user, "u"⟩] ∧
    assembleMessages "u" true [⟨Role.user, "h1"⟩] "search" (some "R") ≠
      [⟨Role.system, promptSearch⟩, ⟨Role.system, "Hasil pencarian:\nR"⟩,
       ⟨Role.user, "h1"⟩, ⟨Role.user, "u"⟩] := by
  have h1 : assembleMessages "u" true [⟨Role.user, "h1"⟩] "search" (some "R") =
      [⟨Role.system, promptSearch⟩, ⟨Role.user, "h1"⟩,
       ⟨Role.system, "Hasil pencarian:\nR"⟩, ⟨Role.user, "u"⟩] := rfl
  refine ⟨h1, ?_⟩
  rw [h1]
  simp

/-- C3 amended: every canonical list the orchestrator assembles is the
base system prompt, then the bounded trailing history window, then at
most one injected search-context system message, then the new user
message last. -/
theorem assemble_shape (u : String) (useSearch : Bool) (hist : List Msg)
    (mode : String) (sr : Option String) :
    ∃ ctxs : List Msg,
      assembleMessages u useSearch hist mode sr =
        [⟨Role.system, promptFor mode⟩] ++ takeLast 8 hist ++ ctxs ++
          [⟨Role.user, u⟩]
      ∧ ctxs.length ≤ 1
      ∧ ∀ m ∈ ctxs, m.role = Role.system ∧
          ∃ r, orNull sr = some r ∧ m.content = "Hasil pencarian:\n" ++ r := by
  have hhist : (if hist.length > 0
      then ([⟨Role.system, promptFor mode⟩] : List Msg) ++ takeLast 8 hist
      else [⟨Role.system, promptFor mode⟩]) =
      [⟨Role.system, promptFor mode⟩] ++ takeLast 8 hist := by
    by_cases hh : hist.length > 0
    · rw [if_pos hh]
    · rw [if_neg hh]
      have : hist = [] := by
        cases hist with
        | nil => rfl
        | cons a l => exact absurd (Nat.succ_pos l.length) hh
      subst this
      rfl
  by_cases hs : (useSearch || mode == "search") = true
  · cases hsr : orNull sr with
    | none =>
      refine ⟨[], ?_, by simp, by simp⟩
      unfold assembleMessages
      simp only [hs, if_true, hsr, hhist, List.append_nil, List.append_assoc]
    | some r =>
      refine ⟨[⟨Role.system, "Hasil pencarian:\n" ++ r⟩], ?_, by simp, ?_⟩
      · unfold assembleMessages
        simp only [hs, if_true, hsr, hhist, List.append_assoc]
      · intro m hm
        rw [List.mem_singleton] at hm
        subst hm
        exact ⟨rfl, r, rfl, rfl⟩
  · refine ⟨[], ?_, by simp, by simp⟩
    unfold assembleMessages
    simp only [hs, if_false, Bool.false_eq_true, hhist, List.append_nil,
      List.append_assoc]

/-- C8 counterexample: on a conversation holding two system messages
(exactly what a search-context injection produces), the mlvoca adapter
concatenates the FIRST system message with the final message, not the
last system message as claimed. -/
theorem mlvocaPrompt_counterexample :
    mlvocaPrompt
        [⟨Role.system, "A"⟩, ⟨Role.system, "B"⟩, ⟨Role.user, "u"⟩] =
      "A\n\nu" ∧
    mlvocaPromptSpec
        [⟨Role.system, "A"⟩, ⟨Role.system, "B"⟩, ⟨Role.user, "u"⟩] =
      "B\n\nu" ∧
    mlvocaPrompt
        [⟨Role.system, "A"⟩, ⟨Role.system, "B"⟩, ⟨Role.user, "u"⟩] ≠
      mlvocaPromptSpec
        [⟨Role.system, "A"⟩, ⟨Role.system, "B"⟩, ⟨Role.user, "u"⟩] := by
  refine ⟨by decide, by decide, by decide⟩

/-- C8 amended: the mlvoca adapter collapses the whole conversation into
one prompt string made of the FIRST system message's content and the
final message's content, discarding every other turn. -/
theorem mlvocaPrompt_first_system_last_message (msgs : List Msg)
    (s : String) (m : Msg)
    (hfind : (msgs.find? fun x => decide (x.role = Role.system)).map
      Msg.content = some s)
    (hs : s ≠ "") (hlast : msgs.getLast? = some m) :
    mlvocaPrompt msgs = s ++ "\n\n" ++ m.content := by
  unfold mlvocaPrompt
  rw [hlast, hfind]
  simp [hs]

/-- C8 amended witness: on the two-system-message conversation the
adapter produces base-system-prompt plus final message. -/
theorem mlvocaPrompt_first_system_last_message_witness :
    mlvocaPrompt [⟨Role.system, "S"⟩, ⟨Role.system, "B"⟩, ⟨Role.user, "u"⟩] =
      "S" ++ "\n\n" ++ "u" :=
  mlvocaPrompt_first_system_last_message
    [⟨Role.system, "S"⟩, ⟨Role.system, "B"⟩, ⟨Role.user, "u"⟩]
    "S" ⟨Role.user, "u"⟩ (by decide) (by decide) (by decide)

/-- C9 counterexample: with a tavily credential configured and a tavily
backend that would answer "T", the whatsapp `search` called as the
orchestrator calls it (default engine) still contacts only DuckDuckGo
and returns its text — the credentialed premium backend is never
tried. -/
theorem search_counterexample :
    truthy env1.tavily = true ∧
    snet1.tavilyR = SResult.ok (some "T") ∧
    searchWA env1 snet1 "q" "duckduckgo" 5 =
      (some "📌 D", [Backend.duckduckgo]) ∧
    Backend.tavily ∉ (searchWA env1 snet1 "q" "duckduckgo" 5).2 := by
  refine ⟨by decide, by decide, by decide, by decide⟩

/-- C9 amended: the whatsapp `search` dispatches solely on its engine
argument — under the default engine it contacts only the always-available
DuckDuckGo backend, regardless of credentials, and returns its flattened
text or none; the bridge aggregator of part_000 is the one that tries
credentialed premium backends (tavily, then serper) before the
always-available backend, stopping at the first truthy result and
silently skipping failed ones. -/
theorem search_dispatch (env : Env) (snet : SearchNet) (bnet : BridgeNet)
    (q : String) (maxResults : Nat) :
    (searchWA env snet q "duckduckgo" maxResults =
      ((match snet.ddg with
        | SResult.err => none
        | SResult.ok d => flattenDDG d maxResults), [Backend.duckduckgo]))
    ∧ (truthy env.tavily = false → truthy env.serper = false →
        searchBridge env bnet = (bnet.ddgB, [Backend.duckduckgo]))
    ∧ (∀ r, truthy env.tavily = true → orNull bnet.tavilyB = some r →
        searchBridge env bnet = (some r, [Backend.tavily]))
    ∧ (∀ r, truthy env.tavily = true → orNull bnet.tavilyB = none →
        truthy env.serper = true → orNull bnet.serperB = some r →
        searchBridge env bnet = (some r, [Backend.tavily, Backend.serper]))
    ∧ (truthy env.tavily = true → orNull bnet.tavilyB = none →
        truthy env.serper = false →
        searchBridge env bnet = (bnet.ddgB, [Backend.tavily, Backend.duckduckgo]))
    ∧ (truthy env.tavily = true → orNull bnet.tavilyB = none →
        truthy env.serper = true → orNull bnet.serperB = none →
        searchBridge env bnet =
          (bnet.ddgB, [Backend.tavily, Backend.serper, Backend.duckduckgo])) := by
  refine ⟨?_, ?_, ?_, ?_, ?_, ?_⟩
  · unfold searchWA searchDDG
    cases snet.ddg <;> simp
  · intro h1 h2
    unfold searchBridge
    simp [h1, h2]
  · intro r h1 h2
    unfold searchBridge
    simp [h1, h2]
  · intro r h1 h2 h3 h4
    unfold searchBridge
    simp [h1, h2, h3, h4]
  · intro h1 h2 h3
    unfold searchBridge
    simp [h1, h2, h3]
  · intro h1 h2 h3 h4
    unfold searchBridge
    simp [h1, h2, h3, h4]

/-- C9 amended witness: with no premium credential configured the bridge
aggregator contacts only DuckDuckGo. -/
theorem search_dispatch_witness :
    searchBridge env0 bnet0 = (bnet0.ddgB, [Backend.duckduckgo]) := by
  have h := search_dispatch env0 snet0 bnet0 "q" 5
  exact h.2.1 (by decide) (by decide)

/-- Clearing one user's rows empties exactly that user's selection. -/
theorem filter_clear_self (l : List ConvRow) (uid : String) :
    (l.filter fun r => decide (¬ r.user_id = uid)).filter
      (fun r => decide (r.user_id = uid)) = [] := by
  rw [List.filter_filter]
  apply List.filter_eq_nil_iff.mpr
  intro a _
  by_cases h : a.user_id = uid <;> simp [h]

/-- Clearing one user's rows leaves any other user's selection intact. -/
theorem filter_clear_other (l : List ConvRow) (uid uid2 : String)
    (h : uid2 ≠ uid) :
    (l.filter fun r => decide (¬ r.user_id = uid)).filter
      (fun r => decide (r.user_id = uid2)) =
    l.filter fun r => decide (r.user_id = uid2) := by
  rw [List.filter_filter]
  apply List.filter_congr
  intro a _
  by_cases h1 : a.user_id = uid
  · have h2 : ¬ a.user_id = uid2 := by
      rw [h1]
      exact fun hc => h hc.symm
    simp [h1, h2]
    exact fun hc => h hc.symm
  · simp [h1]

/-- C10: `clearHistory userId` removes exactly that user's conversation
rows — afterwards their stats are 0 and their history is empty for every
limit, while their settings and every other user's rows, stats and
settings are untouched. -/
theorem clearHistory_frame (st : DBState) (uid : String) :
    getStats (clearHistory st uid) uid = 0
    ∧ (∀ n, getHistory (clearHistory st uid) uid n = [])
    ∧ getSettings (clearHistory st uid) uid = getSettings st uid
    ∧ ∀ uid2, uid2 ≠ uid →
        getStats (clearHistory st uid) uid2 = getStats st uid2
        ∧ (∀ n, getHistory (clearHistory st uid) uid2 n = getHistory st uid2 n)
        ∧ getSettings (clearHistory st uid) uid2 = getSettings st uid2 := by
  refine ⟨?_, ?_, rfl, ?_⟩
  · unfold getStats clearHistory
    rw [filter_clear_self st.conversations uid]
    rfl
  · intro n
    unfold getHistory clearHistory
    rw [filter_clear_self st.conversations uid]
    simp [takeLast]
  · intro uid2 h
    refine ⟨?_, ?_, rfl⟩
    · unfold getStats clearHistory
      rw [filter_clear_other st.conversations uid uid2 h]
    · intro n
      unfold getHistory clearHistory
      rw [filter_clear_other st.conversations uid uid2 h]

/-- C10 witness: clearing alice's history on the two-user state zeroes
alice and leaves bob's rows, history and settings unchanged. -/
theorem clearHistory_frame_witness :
    getStats (clearHistory st0 "alice") "alice" = 0 ∧
    getHistory (clearHistory st0 "alice") "alice" 10 = [] ∧
    getSettings (clearHistory st0 "alice") "alice" = getSettings st0 "alice" ∧
    getStats (clearHistory st0 "alice") "bob" = getStats st0 "bob" ∧
    getHistory (clearHistory st0 "alice") "bob" 10 = getHistory st0 "bob" 10 ∧
    getSettings (clearHistory st0 "alice") "bob" = getSettings st0 "bob" := by
  have h := clearHistory_frame st0 "alice"
  have hb := h.2.2.2 "bob" (by decide)
  exact ⟨h.1, h.2.1 10, h.2.2.1, hb.1, hb.2.1 10, hb.2.2⟩

end ClawAI
